import Mathlib

set_option linter.unusedVariables false
set_option linter.constructorNameAsVariable false

/-!
Shallow embedding of `deepfillv2/trainer.py`: the checkpoint manager
(`restore`, `save_state`), the learning-rate schedule
(`adjust_learning_rate`), optimizer construction (`create_optimizers` in
the WGAN path, the inline Adam construction in `LSGAN_trainer`), the
mask-blend composite and the loss computations of both trainer variants,
and the per-iteration logging/checkpoint event trace of the WGAN loop.
Machine floats are modelled as rationals; tensors as functions from a
finite index type to `ℚ`; the blob store as a partial map from checkpoint
identifiers to deserialized snapshots (a missing or corrupt blob is
`none`).
-/

/-- Checkpoint identifiers: the key space of the blobs named
`checkpoint_<id>.pth` written by `save_state` (trainer.py:140,145) and
fetched by `restore` (trainer.py:109-115). `byIter n` stands for the key
derived from the iteration number, `latest` for the fixed latest key. -/
inductive CkptId
| latest
| byIter (n : ℕ)
deriving DecidableEq

/-- The three networks of the training setup, used to record which
parameter set an optimizer is bound to. -/
inductive Player
| generator
| discriminator
| perceptual
deriving DecidableEq

/-- Configuration object (the `opt` argument), restricted to the fields the
trainer reads. `restore = none` models a falsy `opt.restore`. -/
structure Options where
  restore : Option CkptId
  lr_g : ℚ
  lr_d : ℚ
  b1 : ℚ
  b2 : ℚ
  weight_decay : ℚ
  lr_decrease_factor : ℚ
  lr_decrease_epoch : ℕ
  perceptual_param : ℚ
  gan_param : ℚ
  epochs : ℕ
  log_every : ℕ
  checkpoint_every : ℕ
  checkpoint_interval : ℕ
  multi_gpu : Bool

/-- The checkpoint snapshot dictionary built by `save_state`
(trainer.py:128-136). Parameter sets and optimizer states are modelled
opaquely as lists of rationals. Field order follows the source dict. -/
structure TrainingState where
  epoch : ℕ
  G : List ℚ
  optimizer_g : List ℚ
  D : List ℚ
  optimizer_d : List ℚ
  n_iter : ℕ
  loss : ℚ
deriving DecidableEq

/-- The blob store: checkpoint id to deserialized snapshot. A fetch or
deserialization failure of any kind (missing blob, I/O error, corrupt
data) is `none`. -/
abbrev Store := CkptId → Option TrainingState

/-- Writing one blob to the store (one `torch.save(state, path)`). -/
def putBlob (store : Store) (k : CkptId) (v : TrainingState) : Store :=
  fun k2 => if k2 = k then some v else store k2

/-- Embedding of `restore` (trainer.py:99-119): if `opt.restore` is falsy,
return `None`; otherwise attempt to fetch and deserialize the blob
`checkpoint_<id>.pth`, and on any failure return `None` instead of
raising (the whole body is wrapped in `try/except`). -/
def restore (opt : Options) (store : Store) : Option TrainingState :=
  match opt.restore with
  | none => none
  | some id => store id

/-- Python exceptions that the embedded fragments can raise. -/
inductive PyExc
| typeError
deriving DecidableEq

/-- Embedding of the counter initialization of `WGAN_trainer`
(trainer.py:201-202): `initial_epoch = checkpoint['epoch'] if opt.restore
else 0` and `n_iter = checkpoint['n_iter'] if opt.restore else 0`. When
`opt.restore` is truthy but the checkpoint is `None` (restore failed),
subscripting `None` raises a `TypeError`. -/
def initial_counters (opt : Options) (checkpoint : Option TrainingState) :
    Except PyExc (ℕ × ℕ) :=
  match opt.restore with
  | none => Except.ok (0, 0)
  | some _ =>
    match checkpoint with
    | some c => Except.ok (c.epoch, c.n_iter)
    | none => Except.error PyExc.typeError

/-- Embedding of `save_state` (trainer.py:122-149): build the snapshot
dict once from the arguments (`package` is the identity on the modelled
parameter lists, for either value of `opt.multi_gpu`), then write it
under the iteration-derived key and under the latest key. The result is
the updated store together with the ordered log of writes. -/
def save_state (epoch batch n_iter : ℕ) (G optimizer_g D optimizer_d : List ℚ)
    (loss : ℚ) (opt : Options) (store : Store) :
    Store × List (CkptId × TrainingState) :=
  let package := fun (m : List ℚ) => m
  let state : TrainingState :=
    ⟨epoch, package G, package optimizer_g, package D, package optimizer_d,
      n_iter, loss⟩
  let store1 := putBlob store (CkptId.byIter n_iter) state
  let store2 := putBlob store1 CkptId.latest state
  (store2, [(CkptId.byIter n_iter, state), (CkptId.latest, state)])

/-- Tensors of a given index shape, with entries modelled as rationals. -/
abbrev Tensor (ι : Type) := ι → ℚ

/-- The whole-image composite `img * (1 - mask) + stage_out * mask`
(trainer.py:221-222 and 403-404). -/
def whole_img {ι : Type} (img stage_out mask : Tensor ι) : Tensor ι :=
  fun i => img i * (1 - mask i) + stage_out i * mask i

/-- Embedding of `nn.L1Loss()` with default mean reduction: mean absolute error. -/
def l1Loss {ι : Type} [Fintype ι] (a b : Tensor ι) : ℚ :=
  (∑ i, |a i - b i|) / (Fintype.card ι : ℚ)

/-- Embedding of `nn.MSELoss()` with default mean reduction: mean squared error. -/
def mseLoss {ι : Type} [Fintype ι] (a b : Tensor ι) : ℚ :=
  (∑ i, (a i - b i) ^ 2) / (Fintype.card ι : ℚ)

/-- Embedding of `torch.mean`. -/
def tmean {ι : Type} [Fintype ι] (a : Tensor ι) : ℚ :=
  (∑ i, a i) / (Fintype.card ι : ℚ)

/-- One entry of an optimizer's `param_groups`, with the hyperparameters
Adam is constructed with. -/
structure ParamGroup where
  lr : ℚ
  b1 : ℚ
  b2 : ℚ
  weight_decay : ℚ
deriving DecidableEq

/-- An Adam optimizer: the parameter set it was constructed over (and
whose tensors its `step` mutates) and its `param_groups`. -/
structure AdamOptimizer where
  params : Player
  param_groups : List ParamGroup
deriving DecidableEq

/-- Construction of `torch.optim.Adam(net.parameters(), lr, betas, weight_decay)`,
bound to the parameters of `net`. -/
def adamInit (net : Player) (lr : ℚ) (opt : Options) : AdamOptimizer :=
  ⟨net, [⟨lr, opt.b1, opt.b2, opt.weight_decay⟩]⟩

/-- Embedding of `create_optimizers` (trainer.py:72-83, the WGAN path):
`optimizer_g` over the generator's parameters with `opt.lr_g`,
`optimizer_d` over the discriminator's parameters with `opt.lr_d`. -/
def create_optimizers (generator discriminator : Player) (opt : Options) :
    AdamOptimizer × AdamOptimizer :=
  (adamInit generator opt.lr_g opt, adamInit discriminator opt.lr_d opt)

/-- Embedding of the inline optimizer construction of `LSGAN_trainer`
(trainer.py:341-342): both Adam instances are constructed over
`generator.parameters()`; the second one (intended for the
discriminator) is bound to the generator's parameter set. -/
def LSGAN_create_optimizers (generator discriminator : Player)
    (opt : Options) : AdamOptimizer × AdamOptimizer :=
  (adamInit generator opt.lr_g opt, adamInit generator opt.lr_d opt)

/-- Embedding of `adjust_learning_rate` (trainer.py:92-96, duplicated at
345-349): recompute `lr = lr_in * factor ^ (epoch // decayEvery)` from the
base rate and overwrite the `lr` entry of every param group. -/
def adjust_learning_rate (lr_in : ℚ) (optimizer : AdamOptimizer)
    (epoch : ℕ) (opt : Options) : AdamOptimizer :=
  let lr := lr_in * opt.lr_decrease_factor ^ (epoch / opt.lr_decrease_epoch)
  { optimizer with
      param_groups :=
        optimizer.param_groups.map (fun param_group => { param_group with lr := lr }) }

/-- The index shape `[B, 1, 8, 8]` of the LSGAN discriminator's spatial
output map and of the target maps built at trainer.py:393-394. -/
abbrev ScoreIdx (B : ℕ) := Fin B × Fin 1 × Fin 8 × Fin 8

/-- The all-ones target map `valid = Tensor(np.ones((B, 1, 8, 8)))`
(trainer.py:393). -/
def lsganValid (B : ℕ) : Tensor (ScoreIdx B) := fun _ => 1

/-- The all-zeros target map `fake = Tensor(np.zeros((B, 1, 8, 8)))`
(trainer.py:394). -/
def lsganFake (B : ℕ) : Tensor (ScoreIdx B) := fun _ => 0

/-- Embedding of the LSGAN discriminator loss (trainer.py:412-415):
`loss_fake = MSELoss(fake_scalar, fake)`, `loss_true = MSELoss(true_scalar,
valid)`, `loss_D = 0.5 * (loss_fake + loss_true)`. -/
def LSGAN_loss_D (B : ℕ) (fake_scalar true_scalar : Tensor (ScoreIdx B)) : ℚ :=
  let loss_fake := mseLoss fake_scalar (lsganFake B)
  let loss_true := mseLoss true_scalar (lsganValid B)
  (1 / 2) * (loss_fake + loss_true)

/-- Embedding of the WGAN generator-step loss (trainer.py:218-261). The
generator's two stage outputs, the discriminator (applied to a composite
and the mask), the frozen perceptual network and the ImageNet
normalization `utils.normalize_ImageNet_stats` are taken as function
arguments; the body follows the source statement by statement, including
the `[-1,1] → [0,1]` rescale before normalization. -/
def WGAN_generator_loss {ι κ φ : Type} [Fintype ι] [Fintype κ] [Fintype φ]
    (img mask first_out second_out : Tensor ι)
    (discriminator : Tensor ι → Tensor ι → Tensor κ)
    (perceptualnet : Tensor ι → Tensor φ)
    (normalize_ImageNet_stats : Tensor ι → Tensor ι)
    (opt : Options) : ℚ :=
  let first_out_wholeimg := whole_img img first_out mask
  let second_out_wholeimg := whole_img img second_out mask
  let first_MaskL1Loss := l1Loss first_out_wholeimg img
  let second_MaskL1Loss := l1Loss second_out_wholeimg img
  let fake_scalar := discriminator second_out_wholeimg mask
  let GAN_Loss := - tmean fake_scalar
  let img1 := fun i => (img i + 1) / 2
  let img2 := normalize_ImageNet_stats img1
  let img_featuremaps := perceptualnet img2
  let second1 := fun i => (second_out_wholeimg i + 1) / 2
  let second2 := normalize_ImageNet_stats second1
  let second_out_wholeimg_featuremaps := perceptualnet second2
  let second_PerceptualLoss :=
    l1Loss second_out_wholeimg_featuremaps img_featuremaps
  first_MaskL1Loss + second_MaskL1Loss
    + opt.perceptual_param * second_PerceptualLoss + opt.gan_param * GAN_Loss

/-- The externally observable emissions of one WGAN loop iteration:
the four image logs (trainer.py:225-228), the unconditional scalar log
(trainer.py:271-279), the console print (trainer.py:282-286) and the
checkpoint save (trainer.py:288-299). -/
inductive Event
| imgTraining
| maskTraining
| imgFirstIter
| imgSecondIter
| scalars
| printLog
| saveState (n_iter : ℕ)
deriving DecidableEq

/-- The ordered emissions of the body of the WGAN training loop at
iteration `n_iter` (trainer.py:206-299): images are logged when
`n_iter % opt.log_every == 1`, scalars are logged on every iteration,
the console log is printed when `n_iter % opt.log_every == 1`, and the
training state is saved when `n_iter % opt.checkpoint_every == 1`. -/
def WGAN_iter_events (n_iter : ℕ) (opt : Options) : List Event :=
  (if n_iter % opt.log_every = 1 then
    [Event.imgTraining, Event.maskTraining, Event.imgFirstIter,
      Event.imgSecondIter]
  else [])
  ++ [Event.scalars]
  ++ (if n_iter % opt.log_every = 1 then [Event.printLog] else [])
  ++ (if n_iter % opt.checkpoint_every = 1 then [Event.saveState n_iter]
      else [])

/-- The persistence operations a trainer can perform: saving a whole
network object (`torch.save(net, ...)` in `save_model`), saving a
`TrainingState` snapshot (`save_state`), or attempting a restore. -/
inductive PersistEvent
| modelSave (net : Player) (epoch : ℕ)
| stateSave (n_iter : ℕ)
| restoreAttempt
deriving DecidableEq

/-- Embedding of `save_model` (trainer.py:352-361): save the bare network
object (the `.module` unwrap under `multi_gpu` saves the same network)
exactly when `epoch % opt.checkpoint_interval == 0`. -/
def save_model (net : Player) (epoch : ℕ) (opt : Options) :
    List PersistEvent :=
  if epoch % opt.checkpoint_interval = 0 then
    [PersistEvent.modelSave net epoch]
  else []

/-- The persistence trace of a full `LSGAN_trainer` run
(trainer.py:306-461): the loop body never calls `restore` or
`save_state`; the only persistence is `save_model(generator, epoch + 1,
opt)` at the end of each epoch `epoch ∈ range(opt.epochs)`
(trainer.py:461). -/
def LSGAN_persist_events (opt : Options) : List PersistEvent :=
  (List.range opt.epochs).flatMap
    (fun epoch => save_model Player.generator (epoch + 1) opt)

/-- Concrete configuration requesting `--restore latest`. -/
def optRestoreLatest : Options :=
  ⟨some CkptId.latest, 2/10000, 2/10000, 1/2, 999/1000, 0, 1/2, 10, 10, 1,
    40, 40, 5000, 2, false⟩

/-- Concrete configuration with `log_every = 3` and `checkpoint_every = 5`. -/
def optLog3 : Options :=
  ⟨none, 2/10000, 2/10000, 1/2, 999/1000, 0, 1/2, 10, 10, 1,
    40, 3, 5, 2, false⟩

/-- Concrete configuration with `epochs = 4` and `checkpoint_interval = 2`. -/
def optEpochs4 : Options :=
  ⟨none, 2/10000, 2/10000, 1/2, 999/1000, 0, 1/2, 10, 10, 1,
    4, 40, 5000, 2, false⟩

/-- A blob store holding no checkpoints. -/
def emptyStore : Store := fun _ => none

/-- Claim C1: for every image `img`, binary mask `mask` and generator stage
output `stage_out` (coarse or refined), the whole-image composite
`img * (1 - mask) + stage_out * mask` equals `img` at every position where
the mask is 0 and equals `stage_out` at every position where the mask
is 1. -/
theorem whole_img_blend {ι : Type} (img stage_out mask : Tensor ι) (i : ι) :
    (mask i = 0 → whole_img img stage_out mask i = img i) ∧
    (mask i = 1 → whole_img img stage_out mask i = stage_out i) := by
  constructor <;> intro h <;> simp [whole_img, h]

/-- Witness for C1 at a concrete image, output and mask over two
positions, one unmasked and one masked. -/
theorem whole_img_blend_witness :
    whole_img (fun _ : Fin 2 => (3 : ℚ)) (fun _ => 5)
        (fun j => if j = 0 then 0 else 1) 0 = 3 ∧
    whole_img (fun _ : Fin 2 => (3 : ℚ)) (fun _ => 5)
        (fun j => if j = 0 then 0 else 1) 1 = 5 :=
  ⟨(whole_img_blend _ _ _ 0).1 (by norm_num),
   (whole_img_blend _ _ _ 1).2 (by norm_num)⟩

/-- Claim C2 (code bug): with `--restore latest` and an empty blob store,
`restore` itself returns `None` without raising, but the counter
initialization of `WGAN_trainer` (trainer.py:201-202) guards on
`opt.restore` instead of on the checkpoint, subscripts `None`, and raises
a `TypeError` — the run does not proceed from epoch 0, iteration 0. -/
theorem restore_failure_crashes_run :
    restore optRestoreLatest emptyStore = none ∧
    initial_counters optRestoreLatest (restore optRestoreLatest emptyStore)
      = Except.error PyExc.typeError :=
  ⟨rfl, rfl⟩

/-- Claim C3: every invocation of `save_state` performs exactly two writes,
one under the iteration-derived key and one under the latest key, both of
the same snapshot built from its arguments, and afterwards the store holds
that same snapshot under both keys. -/
theorem save_state_writes_twice (epoch batch n_iter : ℕ)
    (G optimizer_g D optimizer_d : List ℚ) (loss : ℚ) (opt : Options)
    (store : Store) :
    (save_state epoch batch n_iter G optimizer_g D optimizer_d loss opt
        store).2
      = [(CkptId.byIter n_iter,
            ⟨epoch, G, optimizer_g, D, optimizer_d, n_iter, loss⟩),
         (CkptId.latest,
            ⟨epoch, G, optimizer_g, D, optimizer_d, n_iter, loss⟩)]
    ∧ (save_state epoch batch n_iter G optimizer_g D optimizer_d loss opt
        store).1 (CkptId.byIter n_iter)
      = some ⟨epoch, G, optimizer_g, D, optimizer_d, n_iter, loss⟩
    ∧ (save_state epoch batch n_iter G optimizer_g D optimizer_d loss opt
        store).1 CkptId.latest
      = some ⟨epoch, G, optimizer_g, D, optimizer_d, n_iter, loss⟩ := by
  refine ⟨rfl, ?_, ?_⟩ <;> simp [save_state, putBlob]

/-- Claim C4: saving a training state and then restoring with identifier
`latest` yields a state whose epoch, iteration and loss fields are
identical to the saved ones. -/
theorem save_restore_latest_roundtrip (opt : Options)
    (h : opt.restore = some CkptId.latest)
    (epoch batch n_iter : ℕ) (G optimizer_g D optimizer_d : List ℚ)
    (loss : ℚ) (store : Store) :
    ∃ s, restore opt
        (save_state epoch batch n_iter G optimizer_g D optimizer_d loss opt
          store).1 = some s
      ∧ s.epoch = epoch ∧ s.n_iter = n_iter ∧ s.loss = loss := by
  refine ⟨⟨epoch, G, optimizer_g, D, optimizer_d, n_iter, loss⟩, ?_,
    rfl, rfl, rfl⟩
  simp [restore, h, save_state, putBlob]

/-- Witness for C4 on a concrete state and the empty store. -/
theorem save_restore_latest_roundtrip_witness :
    ∃ s, restore optRestoreLatest
        (save_state 3 0 17 [1] [2] [3] [4] (5/2) optRestoreLatest
          emptyStore).1 = some s
      ∧ s.epoch = 3 ∧ s.n_iter = 17 ∧ s.loss = 5/2 :=
  save_restore_latest_roundtrip optRestoreLatest rfl 3 0 17 [1] [2] [3] [4]
    (5/2) emptyStore

/-- Claim C5: after the end-of-epoch adjustment with argument `epoch`,
every param group's learning rate equals
`lr_in * factor ^ (epoch // decayEvery)` exactly, and the result is
independent of any previously applied adjustment (non-cumulative,
idempotent recomputation from the base rate). -/
theorem adjust_learning_rate_staircase (lr_in : ℚ)
    (optimizer : AdamOptimizer) (epoch : ℕ) (opt : Options)
    (h : 0 < opt.lr_decrease_epoch) :
    (∀ g ∈ (adjust_learning_rate lr_in optimizer epoch opt).param_groups,
        g.lr = lr_in
          * opt.lr_decrease_factor ^ (epoch / opt.lr_decrease_epoch)) ∧
    (∀ epoch2 : ℕ,
        adjust_learning_rate lr_in
            (adjust_learning_rate lr_in optimizer epoch2 opt) epoch opt
          = adjust_learning_rate lr_in optimizer epoch opt) := by
  constructor
  · intro g hg
    simp only [adjust_learning_rate, List.mem_map] at hg
    obtain ⟨g0, hg0, rfl⟩ := hg
    rfl
  · intro epoch2
    simp only [adjust_learning_rate, List.map_map]
    rfl

/-- Witness for C5 at epoch 25 with decay factor 1/2 every 10 epochs. -/
theorem adjust_learning_rate_staircase_witness :
    (∀ g ∈ (adjust_learning_rate 2
        ⟨Player.generator, [⟨2, 1/2, 999/1000, 0⟩]⟩ 25 optLog3).param_groups,
        g.lr = 2 * optLog3.lr_decrease_factor
          ^ (25 / optLog3.lr_decrease_epoch)) ∧
    (∀ epoch2 : ℕ,
        adjust_learning_rate 2
            (adjust_learning_rate 2
              ⟨Player.generator, [⟨2, 1/2, 999/1000, 0⟩]⟩ epoch2 optLog3)
            25 optLog3
          = adjust_learning_rate 2
              ⟨Player.generator, [⟨2, 1/2, 999/1000, 0⟩]⟩ 25 optLog3) :=
  adjust_learning_rate_staircase 2
    ⟨Player.generator, [⟨2, 1/2, 999/1000, 0⟩]⟩ 25 optLog3 (by decide)

/-- Claim C6 (code bug): in the WGAN variant each optimizer is bound to its
own player's parameters and neither touches the frozen perceptual
network; but in the LSGAN variant the discriminator optimizer is
constructed over `generator.parameters()` (trainer.py:342), so its step
mutates the generator's parameters and never the discriminator's. -/
theorem lsgan_optimizer_d_binds_generator (opt : Options) :
    (create_optimizers Player.generator Player.discriminator opt).1.params
      = Player.generator
  ∧ (create_optimizers Player.generator Player.discriminator opt).2.params
      = Player.discriminator
  ∧ (LSGAN_create_optimizers Player.generator Player.discriminator
      opt).1.params = Player.generator
  ∧ (LSGAN_create_optimizers Player.generator Player.discriminator
      opt).2.params = Player.generator
  ∧ (LSGAN_create_optimizers Player.generator Player.discriminator
      opt).2.params ≠ Player.discriminator
  ∧ (create_optimizers Player.generator Player.discriminator opt).1.params
      ≠ Player.perceptual
  ∧ (create_optimizers Player.generator Player.discriminator opt).2.params
      ≠ Player.perceptual
  ∧ (LSGAN_create_optimizers Player.generator Player.discriminator
      opt).1.params ≠ Player.perceptual
  ∧ (LSGAN_create_optimizers Player.generator Player.discriminator
      opt).2.params ≠ Player.perceptual :=
  ⟨rfl, rfl, rfl, rfl, fun h => Player.noConfusion h,
    fun h => Player.noConfusion h, fun h => Player.noConfusion h,
    fun h => Player.noConfusion h, fun h => Player.noConfusion h⟩

/-- Claim C7: the LSGAN discriminator loss equals
`0.5 * (MSE(fake_score, zeros) + MSE(real_score, ones))` over target maps
of shape `[B, 1, 8, 8]`, and it evaluates to 0 when the fake scores equal
the all-zeros target and the real scores equal the all-ones target. -/
theorem lsgan_loss_D_spec (B : ℕ)
    (fake_scalar true_scalar : Tensor (ScoreIdx B)) :
    LSGAN_loss_D B fake_scalar true_scalar
      = (1 / 2) * (mseLoss fake_scalar (lsganFake B)
          + mseLoss true_scalar (lsganValid B))
    ∧ (fake_scalar = lsganFake B → true_scalar = lsganValid B →
        LSGAN_loss_D B fake_scalar true_scalar = 0) := by
  refine ⟨rfl, fun hf ht => ?_⟩
  subst hf; subst ht
  simp [LSGAN_loss_D, mseLoss, sub_self]

/-- Witness for C7 at batch size 4: perfectly classified scores give
zero discriminator loss. -/
theorem lsgan_loss_D_spec_witness :
    LSGAN_loss_D 4 (lsganFake 4) (lsganValid 4) = 0 :=
  (lsgan_loss_D_spec 4 (lsganFake 4) (lsganValid 4)).2 rfl rfl

/-- Claim C8: the scalar backpropagated by the WGAN generator step equals
`L1_coarse + L1_refined + perceptualWeight * perceptualLoss
+ ganWeight * GAN_loss`, where the reconstruction terms are mean absolute
errors between each stage's whole-image composite and the real image, the
perceptual term is the mean absolute error between the frozen network's
features of the rescaled-and-normalized refined composite and real image,
and `GAN_loss` is the negated mean of the discriminator's score on the
refined composite. -/
theorem wgan_generator_loss_formula {ι κ φ : Type} [Fintype ι] [Fintype κ]
    [Fintype φ] (img mask first_out second_out : Tensor ι)
    (discriminator : Tensor ι → Tensor ι → Tensor κ)
    (perceptualnet : Tensor ι → Tensor φ)
    (normalize_ImageNet_stats : Tensor ι → Tensor ι) (opt : Options) :
    WGAN_generator_loss img mask first_out second_out discriminator
        perceptualnet normalize_ImageNet_stats opt
      = l1Loss (whole_img img first_out mask) img
        + l1Loss (whole_img img second_out mask) img
        + opt.perceptual_param * l1Loss
            (perceptualnet (normalize_ImageNet_stats
              (fun i => (whole_img img second_out mask i + 1) / 2)))
            (perceptualnet (normalize_ImageNet_stats
              (fun i => (img i + 1) / 2)))
        + opt.gan_param
          * (- tmean (discriminator (whole_img img second_out mask) mask)) :=
  rfl

/-- Counterexample to claim C9 as stated: with `log_every = 3` and
`checkpoint_every = 5`, at iteration 2 the scalar losses are emitted to
the Logger even though iteration 2 lies on neither cadence (under either
phase convention `n % K = 0` or `n % K = 1`). -/
theorem scalars_emitted_off_cadence :
    Event.scalars ∈ WGAN_iter_events 2 optLog3
    ∧ ¬ (2 % optLog3.log_every = 0) ∧ ¬ (2 % optLog3.log_every = 1)
    ∧ ¬ (2 % optLog3.checkpoint_every = 0)
    ∧ ¬ (2 % optLog3.checkpoint_every = 1) := by
  decide

/-- Claim C9 amended: in the WGAN loop, the four image batches are emitted
exactly at iterations `n` with `n % log_every = 1`, the training state is
saved exactly at iterations `n` with `n % checkpoint_every = 1`, and the
scalar losses are emitted at every iteration, not only on the logging
cadence. -/
theorem wgan_iter_events_cadence (n : ℕ) (opt : Options) :
    (Event.imgTraining ∈ WGAN_iter_events n opt ↔ n % opt.log_every = 1)
  ∧ (Event.maskTraining ∈ WGAN_iter_events n opt ↔ n % opt.log_every = 1)
  ∧ (Event.imgFirstIter ∈ WGAN_iter_events n opt ↔ n % opt.log_every = 1)
  ∧ (Event.imgSecondIter ∈ WGAN_iter_events n opt ↔ n % opt.log_every = 1)
  ∧ Event.scalars ∈ WGAN_iter_events n opt
  ∧ (∀ m, Event.saveState m ∈ WGAN_iter_events n opt
      ↔ m = n ∧ n % opt.checkpoint_every = 1) := by
  by_cases h1 : n % opt.log_every = 1 <;>
    by_cases h2 : n % opt.checkpoint_every = 1 <;>
      simp [WGAN_iter_events, h1, h2]

/-- Claim C10: the persistence trace of an LSGAN run consists exactly of
saves of the bare generator network object at the end of epochs `e`
(counted from 1) with `e % checkpoint_interval = 0` and `e ≤ epochs`; in
particular no restore is attempted and no `TrainingState` is saved. -/
theorem lsgan_persistence_model_only (opt : Options)
    (h : 0 < opt.checkpoint_interval) (ev : PersistEvent) :
    ev ∈ LSGAN_persist_events opt ↔
      ∃ e, ev = PersistEvent.modelSave Player.generator e
        ∧ 1 ≤ e ∧ e ≤ opt.epochs ∧ e % opt.checkpoint_interval = 0 := by
  rw [LSGAN_persist_events, List.mem_flatMap]
  constructor
  · rintro ⟨a, ha, hmem⟩
    rw [List.mem_range] at ha
    unfold save_model at hmem
    split at hmem
    · rename_i hc
      rw [List.mem_singleton] at hmem
      exact ⟨a + 1, hmem, by omega, by omega, hc⟩
    · simp at hmem
  · rintro ⟨e, rfl, h1, h2, h3⟩
    refine ⟨e - 1, ?_, ?_⟩
    · rw [List.mem_range]; omega
    · unfold save_model
      have he : e - 1 + 1 = e := by omega
      rw [he, if_pos h3]
      simp

/-- Witness for C10: with 4 epochs and checkpoint interval 2, the
generator-object save at epoch 2 is in the persistence trace. -/
theorem lsgan_persistence_model_only_witness :
    PersistEvent.modelSave Player.generator 2 ∈ LSGAN_persist_events
        optEpochs4 ↔
      ∃ e, PersistEvent.modelSave Player.generator 2
          = PersistEvent.modelSave Player.generator e
        ∧ 1 ≤ e ∧ e ≤ optEpochs4.epochs
        ∧ e % optEpochs4.checkpoint_interval = 0 :=
  lsgan_persistence_model_only optEpochs4 (by decide)
    (PersistEvent.modelSave Player.generator 2)
